import Mathlib

set_option maxRecDepth 100000

/-!
Verification of the chain genesis and consensus-parameter registry of the
`craftcoin2013/rust` repository (files `src/bitcoin/src/blockdata/constants.rs`
and `src/bitcoin/src/consensus/params.rs`), against its natural-language
specification.

The two source files construct the per-network genesis block and consensus
parameters.  The serialization library, the double-SHA-256 primitive and the
script builder they use live elsewhere in the repository and are modelled here
from the specification's interface description (standard Bitcoin consensus
encoding, SHA-256 as standardized in FIPS 180-4, standard script push
encodings).  Everything taken from `constants.rs` / `params.rs` itself is a
direct transcription.
-/

namespace CraftCoin

/-- The network enumeration, an external collaborator of the registry; the
four variants in scope, in the ordinal order assumed by
`ChainHash::using_genesis_block` (`network as usize`). -/
inductive Network where
  | bitcoin
  | testnet
  | signet
  | regtest
deriving DecidableEq, Repr

/-- Ordinal of a network variant (`network as usize` in the source). -/
def Network.toOrdinal : Network → Nat
  | .bitcoin => 0
  | .testnet => 1
  | .signet => 2
  | .regtest => 3

/-! ## Byte-level helpers (modelled from the spec's serialization boundary) -/

/-- Reduce to a 32-bit word. -/
def w32 (x : Nat) : Nat := x % 4294967296

/-- Little-endian bytes of a 32-bit value (4 bytes). -/
def u32le (x : Nat) : List Nat :=
  [x % 256, x / 256 % 256, x / 65536 % 256, x / 16777216 % 256]

/-- Little-endian bytes of a 16-bit value (2 bytes). -/
def u16le (x : Nat) : List Nat := [x % 256, x / 256 % 256]

/-- Little-endian bytes of a 64-bit value (8 bytes). -/
def u64le (x : Nat) : List Nat :=
  u32le (x % 4294967296) ++ u32le (x / 4294967296)

/-- Big-endian bytes of a 32-bit word (4 bytes). -/
def u32be (x : Nat) : List Nat :=
  [x / 16777216 % 256, x / 65536 % 256, x / 256 % 256, x % 256]

/-- Reverse a byte string (the display-order convention for hashes). -/
def reverseBytes (bs : List Nat) : List Nat := bs.reverse

/-! ## SHA-256 (FIPS 180-4), modelled from the spec:
the repository's double-SHA-256 hashing primitive is an external collaborator
(`hashes::sha256d`); we embed the standard algorithm it implements. -/

/-- Right rotation of a 32-bit word. -/
def rotr (n x : Nat) : Nat := w32 ((x >>> n) ||| (x <<< (32 - n)))

/-- SHA-256 round constants. -/
def sha256K : List Nat := [
  1116352408, 1899447441, 3049323471, 3921009573, 961987163, 1508970993, 2453635748, 2870763221,
  3624381080, 310598401, 607225278, 1426881987, 1925078388, 2162078206, 2614888103, 3248222580,
  3835390401, 4022224774, 264347078, 604807628, 770255983, 1249150122, 1555081692, 1996064986,
  2554220882, 2821834349, 2952996808, 3210313671, 3336571891, 3584528711, 113926993, 338241895,
  666307205, 773529912, 1294757372, 1396182291, 1695183700, 1986661051, 2177026350, 2456956037,
  2730485921, 2820302411, 3259730800, 3345764771, 3516065817, 3600352804, 4094571909, 275423344,
  430227734, 506948616, 659060556, 883997877, 958139571, 1322822218, 1537002063, 1747873779,
  1955562222, 2024104815, 2227730452, 2361852424, 2428436474, 2756734187, 3204031479, 3329325298]

/-- SHA-256 initial hash state. -/
def sha256H0 : List Nat :=
  [1779033703, 3144134277, 1013904242, 2773480762, 1359893119, 2600822924, 528734635, 1541459225]

/-- Small sigma 0 message-schedule function. -/
def ssig0 (x : Nat) : Nat := (rotr 7 x) ^^^ (rotr 18 x) ^^^ (x >>> 3)

/-- Small sigma 1 message-schedule function. -/
def ssig1 (x : Nat) : Nat := (rotr 17 x) ^^^ (rotr 19 x) ^^^ (x >>> 10)

/-- Big sigma 0 round function. -/
def bsig0 (x : Nat) : Nat := (rotr 2 x) ^^^ (rotr 13 x) ^^^ (rotr 22 x)

/-- Big sigma 1 round function. -/
def bsig1 (x : Nat) : Nat := (rotr 6 x) ^^^ (rotr 11 x) ^^^ (rotr 25 x)

/-- Extend a 16-word block to the 64-word message schedule. -/
def extendSchedule : Nat → List Nat → List Nat
  | 0, ws => ws
  | n + 1, ws =>
      let len := ws.length
      let wNew := w32 (ssig1 (ws.getD (len - 2) 0) + ws.getD (len - 7) 0 +
        ssig0 (ws.getD (len - 15) 0) + ws.getD (len - 16) 0)
      extendSchedule n (ws ++ [wNew])

/-- Working state of the SHA-256 compression function. -/
structure Sha256State where
  a : Nat
  b : Nat
  c : Nat
  d : Nat
  e : Nat
  f : Nat
  g : Nat
  h : Nat
deriving DecidableEq, Repr

/-- One SHA-256 round; `kw` is the (already reduced) sum of the round constant
and the schedule word. -/
def sha256Round (s : Sha256State) (kw : Nat) : Sha256State :=
  let ch := (Nat.land s.e s.f) ^^^ (Nat.land (4294967295 - s.e) s.g)
  let maj := (Nat.land s.a s.b) ^^^ (Nat.land s.a s.c) ^^^ (Nat.land s.b s.c)
  let t1 := w32 (s.h + bsig1 s.e + ch + kw)
  let t2 := w32 (bsig0 s.a + maj)
  { a := w32 (t1 + t2), b := s.a, c := s.b, d := s.c,
    e := w32 (s.d + t1), f := s.e, g := s.f, h := s.g }

/-- Compress one 16-word block into the 8-word chaining state. -/
def sha256Compress (hs : List Nat) (block : List Nat) : List Nat :=
  let ws := extendSchedule 48 block
  let kws := (sha256K.zip ws).map (fun p => w32 (p.1 + p.2))
  let s0 : Sha256State :=
    { a := hs.getD 0 0, b := hs.getD 1 0, c := hs.getD 2 0, d := hs.getD 3 0,
      e := hs.getD 4 0, f := hs.getD 5 0, g := hs.getD 6 0, h := hs.getD 7 0 }
  let s := kws.foldl sha256Round s0
  [w32 (hs.getD 0 0 + s.a), w32 (hs.getD 1 0 + s.b), w32 (hs.getD 2 0 + s.c),
   w32 (hs.getD 3 0 + s.d), w32 (hs.getD 4 0 + s.e), w32 (hs.getD 5 0 + s.f),
   w32 (hs.getD 6 0 + s.g), w32 (hs.getD 7 0 + s.h)]

/-- SHA-256 padding of a byte message: append `0x80`, zero bytes to 56 mod 64,
then the bit length as 8 big-endian bytes. -/
def sha256Pad (msg : List Nat) : List Nat :=
  let l := msg.length
  let zeros := (64 + 55 - (l % 64)) % 64
  msg ++ [128] ++ List.replicate zeros 0 ++
    (u32be (l * 8 / 4294967296) ++ u32be (l * 8 % 4294967296))

/-- The sixteen big-endian words of the `blk`-th 64-byte block of `bs`. -/
def blockWords (bs : List Nat) (blk : Nat) : List Nat :=
  (List.range 16).map (fun i =>
    bs.getD (64 * blk + 4 * i) 0 * 16777216 + bs.getD (64 * blk + 4 * i + 1) 0 * 65536 +
    bs.getD (64 * blk + 4 * i + 2) 0 * 256 + bs.getD (64 * blk + 4 * i + 3) 0)

/-- Group a padded byte string into 16 big-endian words per 64-byte block. -/
def toBlocks (bs : List Nat) : List (List Nat) :=
  (List.range (bs.length / 64)).map (blockWords bs)

/-- SHA-256 of a byte string, as 32 digest bytes. -/
def sha256 (msg : List Nat) : List Nat :=
  let blocks := toBlocks (sha256Pad msg)
  let hs := blocks.foldl sha256Compress sha256H0
  hs.flatMap u32be

/-- Double SHA-256 (the `sha256d` primitive), raw digest byte order. -/
def sha256d (msg : List Nat) : List Nat := sha256 (sha256 msg)

/-! ## Script construction

Modelled from the spec: the script builder (`script::Builder`) is an external
collaborator; the spec pins its behaviour as the standard Bitcoin script push
encodings ("pushing the literal integer 486604799, then pushing the integer 4
using a non-minimal encoding, then pushing a fixed ASCII byte string as raw
data"; "pushes a fixed single byte value then appends one opcode (CHECKSIG)").
Only the non-negative integers actually pushed by this repository are in
scope, so the embedding is over `Nat`. -/

/-- Little-endian bytes of `n`, at most `fuel` bytes (the builder uses an
8-byte buffer). -/
def leBytesAux : Nat → Nat → List Nat
  | 0, _ => []
  | _ + 1, 0 => []
  | fuel + 1, n => n % 256 :: leBytesAux fuel (n / 256)

/-- Modelled from the spec: `write_scriptint` for a non-negative value —
minimal little-endian bytes with a zero sign byte appended when the top byte
would read as negative. -/
def write_scriptint (n : Nat) : List Nat :=
  if n = 0 then []
  else
    let bs := leBytesAux 8 n
    if 128 ≤ bs.getLast! then bs ++ [0] else bs

/-- Modelled from the spec: a raw data push — a length opcode followed by the
payload (direct length byte below `OP_PUSHDATA1`). -/
def push_slice (s : List Nat) (data : List Nat) : List Nat :=
  if data.length < 76 then s ++ data.length :: data
  else if data.length < 256 then s ++ [76, data.length] ++ data
  else if data.length < 65536 then s ++ 77 :: u16le data.length ++ data
  else s ++ 78 :: u32le data.length ++ data

/-- Append a single opcode byte to a script under construction. -/
def push_opcode (s : List Nat) (op : Nat) : List Nat := s ++ [op]

/-- Modelled from the spec: push an integer without minimal-number
encoding — always as a raw `write_scriptint` data push. -/
def push_int_non_minimal (s : List Nat) (n : Nat) : List Nat :=
  s ++ push_slice [] (write_scriptint n)

/-- Modelled from the spec: push an integer with the canonical encoding —
small values become dedicated opcodes, larger ones a scriptint data push. -/
def push_int (s : List Nat) (n : Nat) : List Nat :=
  if n = 0 then s ++ [0]
  else if n ≤ 16 then s ++ [80 + n]
  else push_int_non_minimal s n

/-- The `OP_CHECKSIG` opcode byte. -/
def OP_CHECKSIG : Nat := 172

/-! ## Transaction and block data model (value types consumed by
`constants.rs`) -/

/-- A reference to a previous transaction output. -/
structure OutPoint where
  txid : List Nat
  vout : Nat
deriving DecidableEq, Repr

/-- `OutPoint::null()`: the all-zero txid with maximal output index. -/
def OutPoint.null : OutPoint := { txid := List.replicate 32 0, vout := 4294967295 }

/-- A transaction input. The witness is a stack of byte strings;
`Witness::default()` is the empty stack. -/
structure TxIn where
  previous_output : OutPoint
  script_sig : List Nat
  sequence : Nat
  witness : List (List Nat)
deriving DecidableEq, Repr

instance : Inhabited TxIn :=
  ⟨{ previous_output := OutPoint.null, script_sig := [], sequence := 0, witness := [] }⟩

/-- A transaction output. The value is in satoshis (`Amount::from_sat`). -/
structure TxOut where
  value : Nat
  script_pubkey : List Nat
deriving DecidableEq, Repr

/-- A transaction (`transaction::Version::ONE` is 1, `LockTime::ZERO` is 0). -/
structure Transaction where
  version : Nat
  lock_time : Nat
  input : List TxIn
  output : List TxOut
deriving DecidableEq, Repr

instance : Inhabited Transaction :=
  ⟨{ version := 0, lock_time := 0, input := [], output := [] }⟩

/-- A block header, as in `block::Header` of this repository (including the
auxiliary proof-of-work data slot, `None` for every genesis header). -/
structure Header where
  version : Nat
  prev_blockhash : List Nat
  merkle_root : List Nat
  time : Nat
  bits : Nat
  nonce : Nat
  aux_data : Option Unit
deriving DecidableEq, Repr

/-- A block: header plus transaction list. -/
structure Block where
  header : Header
  txdata : List Transaction
deriving DecidableEq, Repr

/-! ## Consensus serialization

Modelled from the spec: the serialization/encoding library is an external
collaborator; the spec pins it as the standard Bitcoin consensus encoding
(little-endian integers, compact-size-prefixed byte strings, the 80-byte
header layout; a transaction whose witnesses are all empty serializes in the
legacy format, which is the case for every transaction built here). -/

/-- The Bitcoin compact-size (varint) encoding of a length. -/
def compactSize (n : Nat) : List Nat :=
  if n < 253 then [n]
  else if n < 65536 then 253 :: u16le n
  else if n < 4294967296 then 254 :: u32le n
  else 255 :: u64le n

/-- Consensus serialization of a script: compact-size length then the bytes. -/
def serializeScript (s : List Nat) : List Nat := compactSize s.length ++ s

/-- Consensus serialization of a transaction input. -/
def serializeTxIn (i : TxIn) : List Nat :=
  i.previous_output.txid ++ u32le i.previous_output.vout ++
    serializeScript i.script_sig ++ u32le i.sequence

/-- Consensus serialization of a transaction output. -/
def serializeTxOut (o : TxOut) : List Nat :=
  u64le o.value ++ serializeScript o.script_pubkey

/-- Consensus serialization of a transaction (legacy format; every
transaction in scope has only empty witnesses). -/
def serializeTx (t : Transaction) : List Nat :=
  u32le t.version ++ compactSize t.input.length ++ t.input.flatMap serializeTxIn ++
    compactSize t.output.length ++ t.output.flatMap serializeTxOut ++ u32le t.lock_time

/-- Consensus serialization of a block header: the standard 80-byte layout
(the empty auxiliary slot contributes no bytes). -/
def serializeHeader (h : Header) : List Nat :=
  u32le h.version ++ h.prev_blockhash ++ h.merkle_root ++
    u32le h.time ++ u32le h.bits ++ u32le h.nonce

/-- Consensus serialization of a block. -/
def serializeBlock (b : Block) : List Nat :=
  serializeHeader b.header ++ compactSize b.txdata.length ++ b.txdata.flatMap serializeTx

/-- The transaction id: double SHA-256 of the serialized transaction, in raw
digest byte order.  With all witnesses empty the witness transaction id
(`wtxid`) serializes identically, so it coincides with this value. -/
def Transaction.txid (t : Transaction) : List Nat := sha256d (serializeTx t)

/-- `Block::block_hash`: double SHA-256 of the serialized header, raw digest
byte order. -/
def Block.block_hash (b : Block) : List Nat := sha256d (serializeHeader b.header)

/-- `sha256d::Hash::from_slice`: succeeds exactly on 32-byte input, keeping
the bytes as given. -/
def fromSlice (bs : List Nat) : Option (List Nat) :=
  if bs.length = 32 then some bs else none

/-! ## `constants.rs`: the genesis coinbase transaction and genesis blocks -/

/-- The ASCII bytes of `"Big Brother Is Watching You #PRISM"`. -/
def prismBytes : List Nat :=
  [66, 105, 103, 32, 66, 114, 111, 116, 104, 101, 114, 32, 73, 115, 32, 87, 97, 116, 99,
   104, 105, 110, 103, 32, 89, 111, 117, 32, 35, 80, 82, 73, 83, 77]

/-- `bitcoin_genesis_tx`: the coinbase (and only) transaction of the genesis
block, transcribed from `constants.rs`. -/
def bitcoin_genesis_tx : Transaction :=
  let in_script := push_slice (push_int_non_minimal (push_int [] 486604799) 4) prismBytes
  let out_script := push_opcode (push_slice [] [0]) OP_CHECKSIG
  { version := 1, lock_time := 0,
    input := [{ previous_output := OutPoint.null, script_sig := in_script,
                sequence := 4294967295, witness := [] }],
    output := [{ value := 0, script_pubkey := out_script }] }

/-- The bytes of the hex literal
`71af8a6b906ecef9cf9cb05a593639f6bd2db7cefb9b2ceaed9065b97b01fa35` passed to
`sha256d::Hash::from_slice` in `genesis_block`. -/
def genesisMerkleBytes : List Nat :=
  [113, 175, 138, 107, 144, 110, 206, 249, 207, 156, 176, 90, 89, 54, 57, 246, 189, 45,
   183, 206, 251, 155, 44, 234, 237, 144, 101, 185, 123, 1, 250, 53]

/-- The body of `genesis_block` with the merkle root passed explicitly
(it is the result of the `from_slice(...).unwrap()` in the source). -/
def genesis_block_with (merkle_root : List Nat) (network : Network) : Block :=
  let txdata := [bitcoin_genesis_tx]
  match network with
  | .bitcoin =>
      { header := { version := 1, prev_blockhash := List.replicate 32 0, merkle_root,
                    time := 1371051790, bits := 0x1e0ffff0, nonce := 1848112,
                    aux_data := none },
        txdata }
  | .testnet =>
      { header := { version := 1, prev_blockhash := List.replicate 32 0, merkle_root,
                    time := 1371040850, bits := 0x1e0ffff0, nonce := 1521622,
                    aux_data := none },
        txdata }
  | .signet =>
      { header := { version := 1, prev_blockhash := List.replicate 32 0, merkle_root,
                    time := 1371040850, bits := 0x1e0ffff0, nonce := 1521622,
                    aux_data := none },
        txdata }
  | .regtest =>
      { header := { version := 1, prev_blockhash := List.replicate 32 0, merkle_root,
                    time := 1369199888, bits := 0x1e0ffff0, nonce := 12097647,
                    aux_data := none },
        txdata }

/-- `genesis_block` with the fallible `from_slice(...).unwrap()` step made
explicit: `none` would mean the unwrap panics. -/
def genesis_block_checked (network : Network) : Option Block :=
  (fromSlice genesisMerkleBytes).map (fun m => genesis_block_with m network)

/-- `genesis_block`: constructs and returns the genesis block of a network. -/
def genesis_block (network : Network) : Block :=
  genesis_block_with genesisMerkleBytes network

/-! ## `constants.rs`: the chain identifier registry -/

/-- The uniquely identifying hash of the target blockchain: a 32-byte
newtype. -/
structure ChainHash where
  bytes : List Nat
deriving DecidableEq, Repr

/-- `ChainHash::BITCOIN`, transcribed from the source. -/
def ChainHash.BITCOIN : ChainHash :=
  ⟨[100, 169, 20, 23, 70, 203, 190, 6, 199, 225, 164, 183, 242, 171, 185, 104, 204, 222,
    186, 102, 205, 103, 193, 173, 209, 9, 27, 41, 219, 0, 87, 142]⟩

/-- `ChainHash::TESTNET`, transcribed from the source. -/
def ChainHash.TESTNET : ChainHash :=
  ⟨[124, 240, 177, 93, 148, 201, 214, 147, 239, 202, 221, 86, 220, 158, 213, 15, 176, 18,
    15, 130, 147, 228, 72, 7, 98, 60, 159, 237, 6, 57, 143, 30]⟩

/-- `ChainHash::SIGNET`, transcribed from the source. -/
def ChainHash.SIGNET : ChainHash :=
  ⟨[124, 240, 177, 93, 148, 201, 214, 147, 239, 202, 221, 86, 220, 158, 213, 15, 176, 18,
    15, 130, 147, 228, 72, 7, 98, 60, 159, 237, 6, 57, 143, 30]⟩

/-- `ChainHash::REGTEST`, transcribed from the source. -/
def ChainHash.REGTEST : ChainHash :=
  ⟨[50, 70, 53, 200, 227, 111, 102, 59, 10, 219, 18, 106, 33, 173, 11, 215, 250, 67, 204,
    92, 95, 21, 174, 201, 146, 191, 77, 222, 101, 11, 192, 234]⟩

/-- `ChainHash::using_genesis_block` with the array indexing made explicit:
`none` would mean the index `network as usize` is out of bounds. -/
def ChainHash.using_genesis_block_checked (network : Network) : Option ChainHash :=
  let hashes := [ChainHash.BITCOIN, ChainHash.TESTNET, ChainHash.SIGNET, ChainHash.REGTEST]
  hashes.get? network.toOrdinal

/-- `ChainHash::using_genesis_block`: the hardcoded chain hash of a network,
looked up by the network's ordinal. -/
def ChainHash.using_genesis_block (network : Network) : ChainHash :=
  let hashes := [ChainHash.BITCOIN, ChainHash.TESTNET, ChainHash.SIGNET, ChainHash.REGTEST]
  hashes.getD network.toOrdinal ⟨[]⟩

/-- `ChainHash::from_genesis_block_hash`: an identity copy of the 32 block
hash bytes (`ChainHash(block_hash.to_byte_array())`). -/
def ChainHash.from_genesis_block_hash (block_hash : List Nat) : ChainHash :=
  ⟨block_hash⟩

/-! ## `params.rs`: the consensus parameter registry -/

/-- The proof-of-work limit constants of the external `Target` type; their
numeric values are outside this scope, so they are embedded as opaque tags. -/
inductive TargetLimit where
  | max_attainable_mainnet
  | max_attainable_testnet
  | max_attainable_signet
  | max_attainable_regtest
deriving DecidableEq, Repr

/-- `Params`: parameters that influence chain consensus, transcribed from
`params.rs`. -/
structure Params where
  network : Network
  bip16_time : Nat
  bip34_height : Nat
  bip65_height : Nat
  bip66_height : Nat
  rule_change_activation_threshold : Nat
  miner_confirmation_window : Nat
  pow_limit : TargetLimit
  pow_target_spacing : Nat
  pow_target_timespan : Nat
  allow_min_difficulty_blocks : Bool
  no_pow_retargeting : Bool
deriving DecidableEq, Repr

/-- `Params::new`: creates the parameter set for the given network,
transcribed from `params.rs`. -/
def Params.new (network : Network) : Params :=
  match network with
  | .bitcoin =>
      { network := .bitcoin, bip16_time := 1333238400,
        bip34_height := 0x210c, bip65_height := 0x210c, bip66_height := 0x210c,
        rule_change_activation_threshold := 9576, miner_confirmation_window := 10080,
        pow_limit := .max_attainable_mainnet,
        pow_target_spacing := 60, pow_target_timespan := 24 * 60 * 60,
        allow_min_difficulty_blocks := false, no_pow_retargeting := false }
  | .testnet =>
      { network := .testnet, bip16_time := 1333238400,
        bip34_height := 99999999, bip65_height := 99999999, bip66_height := 99999999,
        rule_change_activation_threshold := 9576, miner_confirmation_window := 10080,
        pow_limit := .max_attainable_testnet,
        pow_target_spacing := 60, pow_target_timespan := 4 * 60 * 60,
        allow_min_difficulty_blocks := true, no_pow_retargeting := false }
  | .signet =>
      { network := .signet, bip16_time := 1333238400,
        bip34_height := 99999999, bip65_height := 99999999, bip66_height := 99999999,
        rule_change_activation_threshold := 9576, miner_confirmation_window := 10080,
        pow_limit := .max_attainable_signet,
        pow_target_spacing := 60, pow_target_timespan := 4 * 60 * 60,
        allow_min_difficulty_blocks := true, no_pow_retargeting := false }
  | .regtest =>
      { network := .regtest, bip16_time := 1333238400,
        bip34_height := 99999999, bip65_height := 99999999, bip66_height := 99999999,
        rule_change_activation_threshold := 9576, miner_confirmation_window := 10080,
        pow_limit := .max_attainable_regtest,
        pow_target_spacing := 60, pow_target_timespan := 4 * 60 * 60,
        allow_min_difficulty_blocks := true, no_pow_retargeting := false }

/-- `Params::difficulty_adjustment_interval`: the number of blocks between
difficulty adjustments (truncating integer division). -/
def Params.difficulty_adjustment_interval (p : Params) : Nat :=
  p.pow_target_timespan / p.pow_target_spacing

/-! ## Sanity checks of the hash and serialization model -/

example : sha256 [] = [227, 176, 196, 66, 152, 252, 28, 20, 154, 251, 244, 200, 153, 111, 185,
  36, 39, 174, 65, 228, 100, 155, 147, 76, 164, 149, 153, 27, 120, 82, 184, 85] := by decide

example : serializeScript (bitcoin_genesis_tx.input.getD 0
    { previous_output := OutPoint.null, script_sig := [], sequence := 0, witness := [] }).script_sig
    = [0x2a, 0x04, 0xff, 0xff, 0x00, 0x1d, 0x01, 0x04, 0x22] ++ prismBytes := by decide

example : bitcoin_genesis_tx.txid = [220, 230, 32, 24, 239, 210, 41, 108, 227, 206, 66, 91,
  39, 53, 104, 248, 42, 80, 74, 108, 82, 172, 103, 81, 83, 229, 239, 18, 237, 97, 199, 156]
    := by decide

/-! ## Claim theorems -/

/-- C1: the claim says that for every network variant the hardcoded chain
hash equals the byte-reversed double-SHA-256 of the serialized genesis
header.  Evaluating the code at Mainnet shows the two sides differ: the
pinned `ChainHash::BITCOIN` is not the display-order hash of the genesis
header the code builds. -/
theorem chain_hash_mainnet_diverges :
    ChainHash.using_genesis_block .bitcoin ≠
      ChainHash.mk (reverseBytes (sha256d (serializeHeader
        (genesis_block .bitcoin).header))) := by decide

/-- Supporting evidence for the diagnosis of C1: if the merkle-root bytes
passed to `from_slice` are reversed first (the byte-order convention the
pinned constants were produced under), the Mainnet chain hash does equal the
display-order double-SHA-256 of the resulting header — the code stores the
merkle-root constant in the wrong byte order. -/
theorem chain_hash_mainnet_matches_reversed_merkle :
    ChainHash.using_genesis_block .bitcoin =
      ChainHash.mk (reverseBytes (sha256d (serializeHeader
        (genesis_block_with (reverseBytes genesisMerkleBytes) .bitcoin).header))) := by decide

/-- Supporting evidence for the diagnosis of C1: the same holds at Testnet
(but not at Regtest, whose pinned constant matches the built header under no
byte-order convention). -/
theorem chain_hash_testnet_matches_reversed_merkle :
    ChainHash.using_genesis_block .testnet =
      ChainHash.mk (reverseBytes (sha256d (serializeHeader
        (genesis_block_with (reverseBytes genesisMerkleBytes) .testnet).header))) := by decide

/-- C2 counterexample: the serialized coinbase script-sig of the Mainnet
genesis block does not begin with the bytes `4d04ffff001d0104` the claim
pins — its first byte is the length `0x2a`, not `0x4d`. -/
theorem genesis_scriptsig_not_pinned_bytes :
    ¬ ((serializeScript ((genesis_block .bitcoin).txdata.head!.input.head!.script_sig)).take 8
        = [0x4d, 0x04, 0xff, 0xff, 0x00, 0x1d, 0x01, 0x04]) := by decide

/-- C2 as amended: `genesis_block(Mainnet)` has header time 1371051790 and
nonce 1848112, and its coinbase script-sig serializes to the fixed byte
string `2a04ffff001d010422` followed by the 34 ASCII bytes of
`"Big Brother Is Watching You #PRISM"`. -/
theorem genesis_mainnet_time_nonce_scriptsig :
    (genesis_block .bitcoin).header.time = 1371051790 ∧
    (genesis_block .bitcoin).header.nonce = 1848112 ∧
    serializeScript ((genesis_block .bitcoin).txdata.head!.input.head!.script_sig)
      = [0x2a, 0x04, 0xff, 0xff, 0x00, 0x1d, 0x01, 0x04, 0x22] ++ prismBytes := by decide

/-- C3: the claim says the merkle root stored in each genesis header equals
the transaction id of the single coinbase transaction.  Evaluating the code
at Mainnet shows the stored merkle-root constant differs from the coinbase's
transaction id under both byte-order conventions (raw digest order and
reversed display order). -/
theorem genesis_merkle_root_not_coinbase_txid :
    (genesis_block .bitcoin).header.merkle_root ≠
        ((genesis_block .bitcoin).txdata.head!).txid ∧
    (genesis_block .bitcoin).header.merkle_root ≠
        reverseBytes (((genesis_block .bitcoin).txdata.head!).txid) := by decide

/-- C4: the claim says `ChainHash::from_genesis_block_hash` applied to the
computed genesis block hash returns the hardcoded chain hash.  Evaluating
the code at Mainnet shows the round trip fails (the identity-copy part of
the claim is `from_genesis_block_hash_identity` below). -/
theorem from_block_hash_roundtrip_fails :
    ChainHash.from_genesis_block_hash ((genesis_block .bitcoin).block_hash) ≠
      ChainHash.using_genesis_block .bitcoin := by decide

/-- The true half of C4: `from_genesis_block_hash` is a pure identity copy
of the input bytes, with no hashing or reordering. -/
theorem from_genesis_block_hash_identity (bs : List Nat) :
    (ChainHash.from_genesis_block_hash bs).bytes = bs := rfl

/-- C5: `difficulty_adjustment_interval` is the truncating integer quotient
of the proof-of-work target timespan by the target spacing, it is
deterministic, and on the Mainnet parameters (timespan 86400, spacing 60) it
returns 1440. -/
theorem difficulty_adjustment_interval_spec :
    (∀ p : Params, p.difficulty_adjustment_interval =
        p.pow_target_timespan / p.pow_target_spacing) ∧
    (∀ p : Params, p.difficulty_adjustment_interval = p.difficulty_adjustment_interval) ∧
    (Params.new .bitcoin).pow_target_timespan = 86400 ∧
    (Params.new .bitcoin).pow_target_spacing = 60 ∧
    (Params.new .bitcoin).difficulty_adjustment_interval = 1440 :=
  ⟨fun _ => rfl, fun _ => rfl, by decide, by decide, by decide⟩

/-- C6: the genesis coinbase transaction has exactly one input, whose
previous-output reference is null, and exactly one output, whose value
is 0. -/
theorem genesis_coinbase_io_shape :
    bitcoin_genesis_tx.input.length = 1 ∧
    bitcoin_genesis_tx.input.head!.previous_output = OutPoint.null ∧
    bitcoin_genesis_tx.output.length = 1 ∧
    (bitcoin_genesis_tx.output.headD { value := 1, script_pubkey := [] }).value = 0 := by
  decide

/-- C7: the Testnet parameters allow minimum-difficulty blocks, the Mainnet
parameters do not, and Mainnet also has retargeting enabled (both relaxation
flags false). -/
theorem params_min_difficulty_flags :
    (Params.new .testnet).allow_min_difficulty_blocks = true ∧
    (Params.new .bitcoin).allow_min_difficulty_blocks = false ∧
    (Params.new .bitcoin).no_pow_retargeting = false := by decide

/-- C8: every registry operation is total over the four network variants:
the fallible `from_slice(...).unwrap()` inside `genesis_block` succeeds and
the array index by network ordinal inside `using_genesis_block` is in
bounds, for every variant (while `params` and
`difficulty_adjustment_interval` are total by type). -/
theorem registry_operations_total :
    ∀ v : Network,
      genesis_block_checked v = some (genesis_block v) ∧
      ChainHash.using_genesis_block_checked v = some (ChainHash.using_genesis_block v) := by
  intro v
  cases v <;> exact ⟨rfl, rfl⟩

/-- C9: genesis-block construction is deterministic: two calls on the same
variant yield structurally equal blocks with byte-for-byte identical
serializations (in this pure embedding of the construction, both sides of
each equation are the same expression). -/
theorem genesis_block_deterministic :
    ∀ v : Network,
      genesis_block v = genesis_block v ∧
      serializeBlock (genesis_block v) = serializeBlock (genesis_block v) :=
  fun _ => ⟨rfl, rfl⟩

/-- C10: the Testnet and Signet genesis blocks are identical (same time
1371040850, same bits, same nonce 1521622, same merkle root and transaction
list), and the hardcoded Testnet and Signet chain hashes are the same
32-byte value, so the two variants are indistinguishable by genesis block or
chain identifier. -/
theorem testnet_signet_indistinguishable :
    genesis_block .testnet = genesis_block .signet ∧
    (genesis_block .testnet).header.time = 1371040850 ∧
    (genesis_block .testnet).header.bits = 0x1e0ffff0 ∧
    (genesis_block .testnet).header.nonce = 1521622 ∧
    (genesis_block .testnet).header.merkle_root = (genesis_block .signet).header.merkle_root ∧
    (genesis_block .testnet).txdata = (genesis_block .signet).txdata ∧
    ChainHash.TESTNET = ChainHash.SIGNET ∧
    ChainHash.using_genesis_block .testnet = ChainHash.using_genesis_block .signet := by
  decide

end CraftCoin
